import Mathlib

/-!
Verification of the outreach scheduling and drip-sequence delivery engine of
the businesshub repository. The definitions below are a shallow embedding of
the relevant source code: the messages table schema and its constraints, the
sequence campaign service, the lead filtering service, the message worker
(admission control, rate counters, health check) and the SMS and email
dispatch services. Time is modelled with integers: calendar days for
registration dates and sequence offsets, minutes for message timestamps.
-/

namespace BusinessHub

/-- Statuses admitted by the messages_status_check constraint of the messages
table in the database setup script. -/
def messagesStatusAllowed : List String :=
  ["pending", "sent", "delivered", "failed", "bounced", "opted_out"]

/-- Message types admitted by the messages_type_check constraint. -/
def messagesTypeAllowed : List String := ["sms", "email"]

/-- One row of the messages table. Columns not used by any claim (content,
subject, personalization data, provider tracking) are omitted; nullable
columns are Option, NOT NULL columns are plain. The createdDate field models
the calendar date of created_at as used by the DATE function, createdAt and
updatedAt model timestamps in minutes. -/
structure Message where
  id : Nat
  leadId : Nat
  messageType : String
  templateName : String
  campaignId : Option Nat
  status : String
  failureReason : Option String
  sentAt : Option Int
  failedAt : Option Int
  createdAt : Int
  createdDate : Int
  updatedAt : Int
deriving DecidableEq

/-- One row of the leads table, restricted to the columns the scheduling core
reads. registrationDate is a calendar day number, none models NULL. -/
structure Lead where
  id : Nat
  state : String
  status : String
  registrationDate : Option Int
  phone : Option String
  email : Option String
deriving DecidableEq

/-- One row of the opt_outs table: a phone or email channel or a direct lead
reference, with opt_out_type in sms, email or all. -/
structure OptOut where
  phone : Option String
  email : Option String
  leadId : Option Nat
  optOutType : String
deriving DecidableEq

/-- One row of the campaigns table, restricted to the fields the worker and
the sequence service read. -/
structure Campaign where
  id : Nat
  messageType : String
  dailyLimit : Int
  hourlyLimit : Int
  targetStates : Option (List String)
  isActive : Bool
deriving DecidableEq

/-- SQL equality between two nullable text columns: true only when both are
non-null and equal, following SQL three-valued logic where NULL = x is not
true. -/
def sqlTextEq : Option String → Option String → Bool
  | some a, some b => a == b
  | _, _ => false

/-- The row check constraints of the messages table: messages_type_check and
messages_status_check. NOT NULL constraints are enforced by the field types
of Message. -/
def messageRowConstraintsOk (m : Message) : Bool :=
  messagesTypeAllowed.contains m.messageType
    && messagesStatusAllowed.contains m.status

/-- Store-level invariant of the messages table: every row passes the check
constraints and the id primary key is unique. This is the complete set of
row and table constraints the schema declares on messages. -/
def messagesTableOk (msgs : List Message) : Prop :=
  msgs.all messageRowConstraintsOk = true ∧ (msgs.map (fun m => m.id)).Nodup

/-- Two message rows carrying the same sequence idempotency key, the tuple of
lead_id, campaign_id and template_name. -/
def sameSeqKey (a b : Message) : Bool :=
  a.leadId == b.leadId && a.campaignId == b.campaignId
    && a.templateName == b.templateName

/-! Sequence campaign service: the LLC follow-up sequence definition and the
generateSequenceMessages algorithm. -/

/-- One step of the LLC follow-up sequence: offset in days from the
registration date, a name, and one template per channel. -/
structure SeqStep where
  day : Nat
  name : String
  smsTemplate : String
  emailTemplate : String
deriving DecidableEq

/-- The llcSequence list from the SequenceCampaignService constructor. -/
def llcSequence : List SeqStep :=
  [ { day := 1, name := "EIN / Tax ID",
      smsTemplate := "llc_day1_ein_sms", emailTemplate := "llc_day1_ein_email" },
    { day := 3, name := "Business Banking",
      smsTemplate := "llc_day3_banking_sms", emailTemplate := "llc_day3_banking_email" },
    { day := 7, name := "Accounting / Bookkeeping",
      smsTemplate := "llc_day7_accounting_sms", emailTemplate := "llc_day7_accounting_email" },
    { day := 10, name := "Registered Agent / Compliance",
      smsTemplate := "llc_day10_compliance_sms", emailTemplate := "llc_day10_compliance_email" },
    { day := 15, name := "Business Insurance",
      smsTemplate := "llc_day15_insurance_sms", emailTemplate := "llc_day15_insurance_email" } ]

/-- Template chosen for a step: the sms template when the message type is
sms, otherwise the email template, as in generateSequenceMessages. -/
def stepTemplate (messageType : String) (step : SeqStep) : String :=
  if messageType == "sms" then step.smsTemplate else step.emailTemplate

/-- State of the messages table together with the id generator. -/
structure Store where
  messages : List Message
  nextId : Nat
deriving DecidableEq

/-- Predicate of the existence query of generateSequenceMessages: a row with
the given lead_id, campaign_id and template_name, in any status. -/
def seqKeyMatches (leadId cid : Nat) (tmpl : String) (m : Message) : Bool :=
  m.leadId == leadId && m.campaignId == some cid && m.templateName == tmpl

/-- Existence of a message row keyed by lead, campaign and template name. -/
def hasSeqMessage (msgs : List Message) (leadId cid : Nat) (tmpl : String) : Bool :=
  msgs.any (seqKeyMatches leadId cid tmpl)

/-- Number of message rows keyed by lead, campaign and template name. -/
def countSeqMessage (msgs : List Message) (leadId cid : Nat) (tmpl : String) : Nat :=
  (msgs.filter (seqKeyMatches leadId cid tmpl)).length

/-- MessageGenerationService.createCampaignMessage, restricted to its store
effect: insert one pending message row carrying the lead, campaign and
template name. -/
def createCampaignMessage (st : Store) (leadId cid : Nat)
    (messageType tmpl : String) (today : Int) : Store :=
  { messages := st.messages ++
      [ { id := st.nextId, leadId := leadId, messageType := messageType,
          templateName := tmpl, campaignId := some cid, status := "pending",
          failureReason := none, sentAt := none, failedAt := none,
          createdAt := today, createdDate := today, updatedAt := today } ],
    nextId := st.nextId + 1 }

/-- Body of the per-step loop of generateSequenceMessages: skip a step whose
scheduled date (registration date plus day offset) is in the future, skip a
step that already has a message keyed by lead, campaign and template name in
any status, otherwise create the message. -/
def generateStep (leadId cid : Nat) (messageType : String) (regDate today : Int)
    (st : Store) (step : SeqStep) : Store :=
  let scheduledDate := regDate + step.day
  if today < scheduledDate then st
  else if hasSeqMessage st.messages leadId cid (stepTemplate messageType step) then st
  else createCampaignMessage st leadId cid messageType (stepTemplate messageType step) today

/-- SequenceCampaignService.generateSequenceMessages: fail when the lead has
no registration date, otherwise run the per-step loop over llcSequence. -/
def generateSequenceMessages (l : Lead) (cid : Nat) (messageType : String)
    (today : Int) (st : Store) : Except String Store :=
  match l.registrationDate with
  | none => .error "Lead must have a registration date for sequence campaigns"
  | some regDate =>
      .ok (llcSequence.foldl (generateStep l.id cid messageType regDate today) st)

/-! Opt-out exclusion, as written in the NOT EXISTS subquery shared by
LeadFilteringService.buildWhereClause and the lead selection query of
SequenceCampaignService.processSingleSequenceCampaign. -/

/-- One opt-out row excludes a lead when its phone matches the lead phone
with type sms or all, or its email matches the lead email with type email or
all, or it references the lead id directly. -/
def optOutMatches (o : OptOut) (l : Lead) : Bool :=
  (sqlTextEq o.phone l.phone && (o.optOutType == "sms" || o.optOutType == "all"))
    || (sqlTextEq o.email l.email && (o.optOutType == "email" || o.optOutType == "all"))
    || (o.leadId == some l.id)

/-- WHERE clause of the lead selection query of
processSingleSequenceCampaign: active status, registration date present and
within the last 30 days, state in the target states when given, a phone for
sms campaigns, an email for email campaigns, and no matching opt-out row. -/
def seqLeadSelectable (messageType : String) (targetStates : Option (List String))
    (today : Int) (optOuts : List OptOut) (l : Lead) : Bool :=
  l.status == "active"
    && (match l.registrationDate with
        | some d => decide (today - 30 ≤ d)
        | none => false)
    && (match targetStates with
        | some ss => ss.contains l.state
        | none => true)
    && (if messageType == "sms" then l.phone.isSome else true)
    && (if messageType == "email" then l.email.isSome else true)
    && !(optOuts.any (fun o => optOutMatches o l))

/-! Campaign admission control: MessageWorker.processCampaign counts the
campaign messages created today and created this hour, in any status, and
admits at most min of the remaining daily quota, the remaining hourly quota
and 50. -/

/-- Count of the campaign messages with DATE of created_at equal to the
current date, any status, as in the first count query of processCampaign. -/
def campaignMessagesToday (msgs : List Message) (cid : Nat) (today : Int) : Nat :=
  (msgs.filter (fun m => m.campaignId == some cid && m.createdDate == today)).length

/-- Count of the campaign messages created since the start of the current
hour, any status, as in the second count query of processCampaign. -/
def campaignMessagesThisHour (msgs : List Message) (cid : Nat) (hourStart : Int) : Nat :=
  (msgs.filter (fun m => m.campaignId == some cid && decide (hourStart ≤ m.createdAt))).length

/-- Admission decision of MessageWorker.processCampaign: none models the
campaign being skipped for this tick without error, some n the generate
limit for the tick. -/
def processCampaignAdmission (c : Campaign) (msgs : List Message)
    (today hourStart : Int) : Option Int :=
  let todayCount : Int := campaignMessagesToday msgs c.id today
  if c.dailyLimit ≤ todayCount then none
  else
    let hourCount : Int := campaignMessagesThisHour msgs c.id hourStart
    if c.hourlyLimit ≤ hourCount then none
    else
      let generateLimit := min (min (c.dailyLimit - todayCount) (c.hourlyLimit - hourCount)) 50
      if generateLimit ≤ 0 then none else some generateLimit

/-- Count of the campaign messages with status sent or delivered created on
the current date. Modelled from the spec: the claimed admission formula
counts only messages with status sent or delivered; this count follows the
words of the claim for comparison with the source definition above. -/
def specSentToday (msgs : List Message) (cid : Nat) (today : Int) : Nat :=
  (msgs.filter (fun m => m.campaignId == some cid && m.createdDate == today
      && (m.status == "sent" || m.status == "delivered"))).length

/-- Count of the campaign messages with status sent or delivered created
since the start of the current hour. Modelled from the spec, as for
specSentToday. -/
def specSentThisHour (msgs : List Message) (cid : Nat) (hourStart : Int) : Nat :=
  (msgs.filter (fun m => m.campaignId == some cid && decide (hourStart ≤ m.createdAt)
      && (m.status == "sent" || m.status == "delivered"))).length

/-- Admission capacity as the claim states it: min of dailyCap minus the
sent-or-delivered count today, hourlyCap minus the sent-or-delivered count
this hour, and the fixed batch ceiling 50. -/
def specAdmissionCapacity (c : Campaign) (msgs : List Message)
    (today hourStart : Int) : Int :=
  min (min (c.dailyLimit - (specSentToday msgs c.id today : Int))
           (c.hourlyLimit - (specSentThisHour msgs c.id hourStart : Int))) 50

/-! Rate counters of MessageWorker: the in-memory cache and its reset
functions. -/

/-- In-memory counter state of the worker. -/
structure WorkerCounters where
  hourlyMessageCount : Nat
  dailyMessageCount : Nat
  lastHourReset : Int
  lastDayReset : Int
deriving DecidableEq

/-- Authoritative count derived from the store: messages with status sent or
delivered whose sent_at is at or after the given period start, as in the two
count queries of MessageWorker.resetCounters. -/
def storeSentSince (msgs : List Message) (since : Int) : Nat :=
  (msgs.filter (fun m =>
      (m.status == "sent" || m.status == "delivered")
        && (match m.sentAt with
            | some t => decide (since ≤ t)
            | none => false))).length

/-- MessageWorker.resetCounters, run at process start: reset the cached
counter on a boundary change, then overwrite both cached counters with the
store-derived counts for the current hour and day. -/
def resetCounters (curHour curDay hourStart dayStart : Int)
    (msgs : List Message) (w : WorkerCounters) : WorkerCounters :=
  let w1 := if curHour ≠ w.lastHourReset
    then { w with hourlyMessageCount := 0, lastHourReset := curHour } else w
  let w2 := if curDay ≠ w1.lastDayReset
    then { w1 with dailyMessageCount := 0, lastDayReset := curDay } else w1
  { w2 with hourlyMessageCount := storeSentSince msgs hourStart,
            dailyMessageCount := storeSentSince msgs dayStart }

/-- MessageWorker.resetHourlyCounter, run by the hourly cron: zero the cached
hourly counter without consulting the store. -/
def resetHourlyCounter (curHour : Int) (w : WorkerCounters) : WorkerCounters :=
  { w with hourlyMessageCount := 0, lastHourReset := curHour }

/-- MessageWorker.resetDailyCounter, run by the midnight cron: zero the
cached daily counter without consulting the store. -/
def resetDailyCounter (curDay : Int) (w : WorkerCounters) : WorkerCounters :=
  { w with dailyMessageCount := 0, lastDayReset := curDay }

/-! Dispatch services: provider retry loops of SMSService.sendWithRetry and
EmailService.sendWithRetry, and the pending batch selection of
MessageWorker.processMessages. -/

/-- A provider error: message text and the optional numeric code the email
retry predicate inspects. -/
structure ProviderError where
  message : String
  code : Option Int
deriving DecidableEq

/-- EmailService.isRetryableError: false without a code, otherwise true for
the rate limit and temporary server error codes. -/
def isRetryableError (e : ProviderError) : Bool :=
  match e.code with
  | none => false
  | some c => [429, 500, 502, 503, 504].contains c

/-- maxRetries of SMSService. -/
def smsMaxRetries : Nat := 3

/-- maxRetries of EmailService. -/
def emailMaxRetries : Nat := 3

/-- SMSService.sendWithRetry: call the provider; on any error, retry with the
next attempt number while attempt is below maxRetries, else rethrow. The
provider is an oracle from attempt number to outcome; the result is paired
with the number of provider invocations performed. The fuel argument bounds
the recursion and never runs out when it starts at maxRetries. -/
def smsSendWithRetry (provider : Nat → Except ProviderError Nat)
    (fuel attempt : Nat) : Except ProviderError Nat × Nat :=
  match provider attempt with
  | .ok r => (.ok r, 1)
  | .error e =>
    match fuel with
    | 0 => (.error e, 1)
    | Nat.succ fuelTail =>
      if attempt < smsMaxRetries then
        let next := smsSendWithRetry provider fuelTail (attempt + 1)
        (next.1, next.2 + 1)
      else (.error e, 1)

/-- EmailService.sendWithRetry: as for SMS, but a failed attempt is retried
only when the error is retryable. -/
def emailSendWithRetry (provider : Nat → Except ProviderError Nat)
    (fuel attempt : Nat) : Except ProviderError Nat × Nat :=
  match provider attempt with
  | .ok r => (.ok r, 1)
  | .error e =>
    match fuel with
    | 0 => (.error e, 1)
    | Nat.succ fuelTail =>
      if attempt < emailMaxRetries && isRetryableError e then
        let next := emailSendWithRetry provider fuelTail (attempt + 1)
        (next.1, next.2 + 1)
      else (.error e, 1)

/-- Number of provider invocations of one SMS dispatch, starting at attempt
one as sendSMS does. -/
def smsProviderCallCount (provider : Nat → Except ProviderError Nat) : Nat :=
  (smsSendWithRetry provider smsMaxRetries 1).2

/-- Number of provider invocations of one email dispatch. -/
def emailProviderCallCount (provider : Nat → Except ProviderError Nat) : Nat :=
  (emailSendWithRetry provider emailMaxRetries 1).2

/-- Pending message selection of MessageWorker.processMessages: messages with
status pending, ordered oldest created first, limited to the batch limit. -/
def pendingBatch (msgs : List Message) (limit : Nat) : List Message :=
  ((msgs.filter (fun m => m.status == "pending")).insertionSort
      (fun a b => a.createdAt ≤ b.createdAt)).take limit

/-! Health monitor: MessageWorker.healthCheck. -/

/-- Update applied by healthCheck to one message row: a row in status sending
whose updated_at is more than one hour (60 minutes) old becomes failed with
the timeout failure reason; every other row is left unchanged. -/
def reclaimStuckMessage (now : Int) (m : Message) : Message :=
  if m.status == "sending" && decide (m.updatedAt < now - 60) then
    { m with status := "failed",
             failureReason := some "Timeout - message stuck in sending status",
             failedAt := some now, updatedAt := now }
  else m

/-- Effect of one healthCheck pass on the messages table. -/
def healthCheckMessages (now : Int) (msgs : List Message) : List Message :=
  msgs.map (reclaimStuckMessage now)

/-- Count of messages sitting in pending for more than 24 hours, which
healthCheck reports in a warning without modifying them. -/
def oldPendingCount (now : Int) (msgs : List Message) : Nat :=
  (msgs.filter (fun m => m.status == "pending" && decide (m.createdAt < now - 1440))).length

/-! Targeting selection ordering: LeadFilteringService.getFilteredLeads and
getLeadsForCampaign. -/

/-- Registration date of a lead as the sort key of ORDER BY
registration_date. All leads compared by the ordering claims carry a date;
NULL ordering is not modelled and a missing date sorts as day zero. -/
def regOf (l : Lead) : Int := l.registrationDate.getD 0

/-- Relation for ascending registration date order. -/
def leadRegAsc (a b : Lead) : Prop := regOf a ≤ regOf b

/-- Relation for descending registration date order. -/
def leadRegDesc (a b : Lead) : Prop := regOf b ≤ regOf a

instance : DecidableRel leadRegAsc := fun _ _ => Int.decLe _ _

instance : DecidableRel leadRegDesc := fun _ _ => Int.decLe _ _

/-- ORDER BY registration_date in the requested direction, as a stable sort
on the registration date key. -/
def orderByRegistration (direction : String) (leads : List Lead) : List Lead :=
  if direction == "ASC" then leads.insertionSort leadRegAsc
  else leads.insertionSort leadRegDesc

/-- ASCII upper-casing of one character, modelling the toUpperCase call of
getFilteredLeads on the direction option values. -/
def asciiUpper (c : Char) : Char :=
  if c.isLower then Char.ofNat (c.toNat - 32) else c

/-- ASCII upper-casing of a string. -/
def strUpper (s : String) : String := String.mk (s.data.map asciiUpper)

/-- Direction sanitation of getFilteredLeads: ASC only when the upper-cased
option equals ASC, otherwise DESC. -/
def safeOrderDirection (orderDirection : String) : String :=
  if strUpper orderDirection == "ASC" then "ASC" else "DESC"

/-- Default orderDirection option value of getFilteredLeads. -/
def defaultOrderDirection : String := "DESC"

/-- Ordering performed by getFilteredLeads for a given orderDirection
option. -/
def getFilteredLeadsOrder (orderDirection : String) (leads : List Lead) : List Lead :=
  orderByRegistration (safeOrderDirection orderDirection) leads

/-- Ordering performed by getLeadsForCampaign, which calls getFilteredLeads
with orderDirection ASC. -/
def getLeadsForCampaignOrder (leads : List Lead) : List Lead :=
  getFilteredLeadsOrder "ASC" leads

/-! Status values written by the dispatch services. -/

/-- Status written by SMSService.sendSMS when a dispatch starts. -/
def smsDispatchStartStatus : String := "sending"

/-- Status written by EmailService.sendEmail when a dispatch starts. -/
def emailDispatchStartStatus : String := "sending"

/-! Concrete records used by witnesses and counterexamples. -/

/-- An empty messages store. -/
def storeEmpty : Store := { messages := [], nextId := 0 }

/-- A lead with a registration date, used by sequence generation witnesses. -/
def leadReg : Lead :=
  { id := 1, state := "FL", status := "active", registrationDate := some 0,
    phone := some "+15550001111", email := some "owner@acme.com" }

/-- A lead without a registration date. -/
def leadNoReg : Lead :=
  { id := 2, state := "FL", status := "active", registrationDate := none,
    phone := none, email := some "other@acme.com" }

/-- Result of one sequence generation run for leadReg on day 20 from the
empty store. -/
def seqRunOne : Store :=
  ((generateSequenceMessages leadReg 5 "email" 20 storeEmpty).toOption).getD storeEmpty

/-- A lead with both contact channels, registered yesterday relative to day
10, used by the opt-out counterexample. -/
def leadBoth : Lead :=
  { id := 3, state := "FL", status := "active", registrationDate := some 9,
    phone := some "+15552223333", email := some "both@acme.com" }

/-- An opt-out row for the phone of leadBoth with type sms only. -/
def optOutSmsRow : OptOut :=
  { phone := some "+15552223333", email := none, leadId := none, optOutType := "sms" }

/-- Campaign used by the admission counterexample: daily limit 10, hourly
limit 10. -/
def campaignCap : Campaign :=
  { id := 1, messageType := "email", dailyLimit := 10, hourlyLimit := 10,
    targetStates := none, isActive := true }

/-- A failed message row of campaignCap created on day 0 at minute 0. -/
def failedMsgRow (n : Nat) : Message :=
  { id := n, leadId := n, messageType := "email", templateName := "llc_welcome_email",
    campaignId := some 1, status := "failed", failureReason := some "bounce",
    sentAt := none, failedAt := some 0, createdAt := 0, createdDate := 0, updatedAt := 0 }

/-- Ten failed messages of campaignCap created today and this hour. -/
def failedMsgsToday : List Message := (List.range 10).map failedMsgRow

/-- Two valid message rows sharing the sequence key with distinct ids. -/
def dupKeyRowA : Message :=
  { id := 100, leadId := 7, messageType := "email", templateName := "llc_day1_ein_email",
    campaignId := some 4, status := "pending", failureReason := none,
    sentAt := none, failedAt := none, createdAt := 0, createdDate := 0, updatedAt := 0 }

/-- Second row with the same sequence key as dupKeyRowA. -/
def dupKeyRowB : Message :=
  { id := 101, leadId := 7, messageType := "email", templateName := "llc_day1_ein_email",
    campaignId := some 4, status := "sent", failureReason := none,
    sentAt := some 5, failedAt := none, createdAt := 1, createdDate := 0, updatedAt := 5 }

/-- A message with status sent this hour, for the counter counterexample. -/
def sentMsgRow : Message :=
  { id := 200, leadId := 9, messageType := "sms", templateName := "llc_welcome_sms",
    campaignId := some 1, status := "sent", failureReason := none,
    sentAt := some 5, failedAt := none, createdAt := 2, createdDate := 0, updatedAt := 5 }

/-- Worker counter state with nonzero cached counts. -/
def workerW0 : WorkerCounters :=
  { hourlyMessageCount := 4, dailyMessageCount := 9, lastHourReset := 0, lastDayReset := 0 }

/-- A provider that fails every attempt with a retryable 500 error. -/
def alwaysNetErr : Nat → Except ProviderError Nat :=
  fun _ => .error { message := "network error", code := some 500 }

/-- A provider that succeeds on the first attempt. -/
def alwaysOk : Nat → Except ProviderError Nat :=
  fun _ => .ok 42

/-- A pending message row for the dispatch witness. -/
def pendingMsgRow : Message :=
  { id := 300, leadId := 11, messageType := "email", templateName := "llc_welcome_email",
    campaignId := none, status := "pending", failureReason := none,
    sentAt := none, failedAt := none, createdAt := 3, createdDate := 0, updatedAt := 3 }

/-- A message stuck in sending for 90 minutes at time 1000. -/
def stuckMsgRow : Message :=
  { id := 400, leadId := 12, messageType := "sms", templateName := "llc_welcome_sms",
    campaignId := some 1, status := "sending", failureReason := none,
    sentAt := none, failedAt := none, createdAt := 900, createdDate := 0, updatedAt := 910 }

/-- Lead registered earliest, for the ordering counterexample. -/
def leadT1 : Lead :=
  { id := 21, state := "FL", status := "active", registrationDate := some 100,
    phone := none, email := some "t1@acme.com" }

/-- Lead registered second. -/
def leadT2 : Lead :=
  { id := 22, state := "FL", status := "active", registrationDate := some 200,
    phone := none, email := some "t2@acme.com" }

/-- Lead registered last. -/
def leadT3 : Lead :=
  { id := 23, state := "FL", status := "active", registrationDate := some 300,
    phone := none, email := some "t3@acme.com" }

/-! Helper lemmas about sequence message generation. -/

theorem countSeqMessage_append (a b : List Message) (lid cid : Nat) (t : String) :
    countSeqMessage (a ++ b) lid cid t
      = countSeqMessage a lid cid t + countSeqMessage b lid cid t := by
  simp [countSeqMessage, List.filter_append]

theorem hasSeqMessage_append (a b : List Message) (lid cid : Nat) (t : String) :
    hasSeqMessage (a ++ b) lid cid t
      = (hasSeqMessage a lid cid t || hasSeqMessage b lid cid t) := by
  simp [hasSeqMessage, List.any_append]

theorem seqKeyMatches_inserted (lid cid : Nat) (t : String) (st : Store)
    (mt tmpl : String) (today : Int) :
    seqKeyMatches lid cid t
        { id := st.nextId, leadId := lid, messageType := mt, templateName := tmpl,
          campaignId := some cid, status := "pending", failureReason := none,
          sentAt := none, failedAt := none, createdAt := today, createdDate := today,
          updatedAt := today }
      = (tmpl == t) := by
  simp [seqKeyMatches]

theorem hasSeqMessage_createCampaignMessage (st : Store) (lid cid : Nat)
    (mt tmpl t : String) (today : Int) :
    hasSeqMessage (createCampaignMessage st lid cid mt tmpl today).messages lid cid t
      = (hasSeqMessage st.messages lid cid t || tmpl == t) := by
  simp only [createCampaignMessage, hasSeqMessage_append]
  simp [hasSeqMessage, seqKeyMatches_inserted]

theorem countSeqMessage_createCampaignMessage (st : Store) (lid cid : Nat)
    (mt tmpl t : String) (today : Int) :
    countSeqMessage (createCampaignMessage st lid cid mt tmpl today).messages lid cid t
      = countSeqMessage st.messages lid cid t + (if tmpl == t then 1 else 0) := by
  simp only [createCampaignMessage, countSeqMessage_append]
  by_cases h : tmpl == t <;> simp [countSeqMessage, seqKeyMatches_inserted, h]

theorem generateStep_eq_or (lid cid : Nat) (mt : String) (reg today : Int)
    (st : Store) (s : SeqStep) :
    generateStep lid cid mt reg today st s = st
      ∨ (reg + (s.day : Int) ≤ today
          ∧ hasSeqMessage st.messages lid cid (stepTemplate mt s) = false
          ∧ generateStep lid cid mt reg today st s
              = createCampaignMessage st lid cid mt (stepTemplate mt s) today) := by
  unfold generateStep
  by_cases h1 : today < reg + (s.day : Int)
  · exact Or.inl (by simp [h1])
  · cases h2 : hasSeqMessage st.messages lid cid (stepTemplate mt s)
    · exact Or.inr ⟨by omega, rfl, by simp [h1, h2]⟩
    · exact Or.inl (by simp [h1, h2])

theorem generateStep_of_future (lid cid : Nat) (mt : String) (reg today : Int)
    (st : Store) (s : SeqStep) (h : today < reg + (s.day : Int)) :
    generateStep lid cid mt reg today st s = st := by
  unfold generateStep
  simp [h]

theorem generateStep_of_has (lid cid : Nat) (mt : String) (reg today : Int)
    (st : Store) (s : SeqStep)
    (h : hasSeqMessage st.messages lid cid (stepTemplate mt s) = true) :
    generateStep lid cid mt reg today st s = st := by
  unfold generateStep
  by_cases h1 : today < reg + (s.day : Int) <;> simp [h1, h]

theorem hasSeqMessage_generateStep_of_has (lid cid : Nat) (mt : String)
    (reg today : Int) (st : Store) (s : SeqStep) (t : String)
    (h : hasSeqMessage st.messages lid cid t = true) :
    hasSeqMessage (generateStep lid cid mt reg today st s).messages lid cid t = true := by
  rcases generateStep_eq_or lid cid mt reg today st s with heq | ⟨_, _, heq⟩ <;>
    rw [heq] <;> simp [hasSeqMessage_createCampaignMessage, h]

theorem countSeqMessage_generateStep_of_has (lid cid : Nat) (mt : String)
    (reg today : Int) (st : Store) (s : SeqStep) (t : String)
    (h : hasSeqMessage st.messages lid cid t = true) :
    countSeqMessage (generateStep lid cid mt reg today st s).messages lid cid t
      = countSeqMessage st.messages lid cid t := by
  rcases generateStep_eq_or lid cid mt reg today st s with heq | ⟨_, hno, heq⟩
  · rw [heq]
  · rw [heq, countSeqMessage_createCampaignMessage]
    have hne : (stepTemplate mt s == t) = false := by
      cases hbe : stepTemplate mt s == t
      · rfl
      · exact absurd h (by rw [eq_of_beq hbe] at hno; simp [hno])
    simp [hne]

theorem hasSeqMessage_generateStep_due (lid cid : Nat) (mt : String)
    (reg today : Int) (st : Store) (s : SeqStep)
    (hdue : reg + (s.day : Int) ≤ today) :
    hasSeqMessage (generateStep lid cid mt reg today st s).messages lid cid
        (stepTemplate mt s) = true := by
  unfold generateStep
  have h1 : ¬ today < reg + (s.day : Int) := by omega
  cases h2 : hasSeqMessage st.messages lid cid (stepTemplate mt s)
  · simp [h1, h2, hasSeqMessage_createCampaignMessage]
  · simp [h1, h2]

theorem hasSeqMessage_foldl_of_has (lid cid : Nat) (mt : String)
    (reg today : Int) (L : List SeqStep) (st : Store) (t : String)
    (h : hasSeqMessage st.messages lid cid t = true) :
    hasSeqMessage (L.foldl (generateStep lid cid mt reg today) st).messages lid cid t
      = true := by
  induction L generalizing st with
  | nil => exact h
  | cons s L ih =>
      exact ih _ (hasSeqMessage_generateStep_of_has lid cid mt reg today st s t h)

theorem countSeqMessage_foldl_of_has (lid cid : Nat) (mt : String)
    (reg today : Int) (L : List SeqStep) (st : Store) (t : String)
    (h : hasSeqMessage st.messages lid cid t = true) :
    countSeqMessage (L.foldl (generateStep lid cid mt reg today) st).messages lid cid t
      = countSeqMessage st.messages lid cid t := by
  induction L generalizing st with
  | nil => rfl
  | cons s L ih =>
      rw [List.foldl_cons,
        ih _ (hasSeqMessage_generateStep_of_has lid cid mt reg today st s t h),
        countSeqMessage_generateStep_of_has lid cid mt reg today st s t h]

theorem hasSeqMessage_foldl_due (lid cid : Nat) (mt : String)
    (reg today : Int) (L : List SeqStep) (st : Store) (s : SeqStep)
    (hs : s ∈ L) (hdue : reg + (s.day : Int) ≤ today) :
    hasSeqMessage (L.foldl (generateStep lid cid mt reg today) st).messages lid cid
        (stepTemplate mt s) = true := by
  induction L generalizing st with
  | nil => cases hs
  | cons a L ih =>
      rw [List.foldl_cons]
      rcases List.mem_cons.mp hs with rfl | hmem
      · exact hasSeqMessage_foldl_of_has lid cid mt reg today L _ _
          (hasSeqMessage_generateStep_due lid cid mt reg today st s hdue)
      · exact ih _ hmem

theorem foldl_generateStep_eq_self (lid cid : Nat) (mt : String)
    (reg today : Int) (L : List SeqStep) (st : Store)
    (h : ∀ s ∈ L, reg + (s.day : Int) ≤ today →
      hasSeqMessage st.messages lid cid (stepTemplate mt s) = true) :
    L.foldl (generateStep lid cid mt reg today) st = st := by
  induction L with
  | nil => rfl
  | cons a L ih =>
      have ha : generateStep lid cid mt reg today st a = st := by
        by_cases h1 : today < reg + (a.day : Int)
        · exact generateStep_of_future lid cid mt reg today st a h1
        · exact generateStep_of_has lid cid mt reg today st a
            (h a (List.mem_cons_self a L) (by omega))
      rw [List.foldl_cons, ha, ih (fun s hs => h s (List.mem_cons_of_mem a hs))]

theorem countSeqMessage_generateStep_ne (lid cid : Nat) (mt : String)
    (reg today : Int) (st : Store) (s : SeqStep) (t : String)
    (hne : (stepTemplate mt s == t) = false) :
    countSeqMessage (generateStep lid cid mt reg today st s).messages lid cid t
        = countSeqMessage st.messages lid cid t
      ∧ hasSeqMessage (generateStep lid cid mt reg today st s).messages lid cid t
        = hasSeqMessage st.messages lid cid t := by
  rcases generateStep_eq_or lid cid mt reg today st s with heq | ⟨_, _, heq⟩
  · rw [heq]; exact ⟨rfl, rfl⟩
  · rw [heq, countSeqMessage_createCampaignMessage, hasSeqMessage_createCampaignMessage]
    simp [hne]

theorem countSeqMessage_generateStep_self (lid cid : Nat) (mt : String)
    (reg today : Int) (st : Store) (s : SeqStep) :
    countSeqMessage (generateStep lid cid mt reg today st s).messages lid cid
        (stepTemplate mt s)
      = countSeqMessage st.messages lid cid (stepTemplate mt s)
        + (if reg + (s.day : Int) ≤ today
              ∧ hasSeqMessage st.messages lid cid (stepTemplate mt s) = false
           then 1 else 0) := by
  by_cases h1 : today < reg + (s.day : Int)
  · rw [generateStep_of_future lid cid mt reg today st s h1]
    have : ¬ (reg + (s.day : Int) ≤ today
        ∧ hasSeqMessage st.messages lid cid (stepTemplate mt s) = false) := by
      rintro ⟨hc, _⟩; omega
    simp [this]
  · cases h2 : hasSeqMessage st.messages lid cid (stepTemplate mt s)
    · unfold generateStep
      rw [if_neg h1]
      rw [if_neg (by simp [h2])]
      rw [countSeqMessage_createCampaignMessage]
      have : reg + (s.day : Int) ≤ today
          ∧ hasSeqMessage st.messages lid cid (stepTemplate mt s) = false :=
        ⟨by omega, h2⟩
      simp [this]
    · rw [generateStep_of_has lid cid mt reg today st s h2]
      simp [h2]

theorem countSeqMessage_foldl_not_mem (lid cid : Nat) (mt : String)
    (reg today : Int) (L : List SeqStep) (st : Store) (t : String)
    (h : ∀ s ∈ L, (stepTemplate mt s == t) = false) :
    countSeqMessage (L.foldl (generateStep lid cid mt reg today) st).messages lid cid t
        = countSeqMessage st.messages lid cid t
      ∧ hasSeqMessage (L.foldl (generateStep lid cid mt reg today) st).messages lid cid t
        = hasSeqMessage st.messages lid cid t := by
  induction L generalizing st with
  | nil => exact ⟨rfl, rfl⟩
  | cons a L ih =>
      rw [List.foldl_cons]
      have ha := countSeqMessage_generateStep_ne lid cid mt reg today st a t
        (h a (List.mem_cons_self a L))
      have hrest := ih (generateStep lid cid mt reg today st a)
        (fun s hs => h s (List.mem_cons_of_mem a hs))
      exact ⟨hrest.1.trans ha.1, hrest.2.trans ha.2⟩

theorem countSeqMessage_foldl_key (lid cid : Nat) (mt : String)
    (reg today : Int) (L : List SeqStep) (st : Store) (s : SeqStep)
    (hnd : (L.map (stepTemplate mt)).Nodup) (hs : s ∈ L) :
    countSeqMessage (L.foldl (generateStep lid cid mt reg today) st).messages lid cid
        (stepTemplate mt s)
      = countSeqMessage st.messages lid cid (stepTemplate mt s)
        + (if reg + (s.day : Int) ≤ today
              ∧ hasSeqMessage st.messages lid cid (stepTemplate mt s) = false
           then 1 else 0) := by
  induction L generalizing st with
  | nil => cases hs
  | cons a L ih =>
      rw [List.map_cons, List.nodup_cons] at hnd
      rw [List.foldl_cons]
      rcases List.mem_cons.mp hs with rfl | hmem
      · have hnot : ∀ s1 ∈ L, (stepTemplate mt s1 == stepTemplate mt s) = false := by
          intro s1 hs1
          cases hbe : stepTemplate mt s1 == stepTemplate mt s
          · rfl
          · exact absurd (eq_of_beq hbe ▸ List.mem_map_of_mem (stepTemplate mt) hs1)
              hnd.1
        rw [(countSeqMessage_foldl_not_mem lid cid mt reg today L _ _ hnot).1]
        exact countSeqMessage_generateStep_self lid cid mt reg today st s
      · have hne : (stepTemplate mt a == stepTemplate mt s) = false := by
          cases hbe : stepTemplate mt a == stepTemplate mt s
          · rfl
          · exact absurd (eq_of_beq hbe ▸ List.mem_map_of_mem (stepTemplate mt) hmem)
              hnd.1
        have ha := countSeqMessage_generateStep_ne lid cid mt reg today st a
          (stepTemplate mt s) hne
        rw [ih _ hnd.2 hmem, ha.1, ha.2]

theorem stepTemplate_nodup (mt : String) :
    (llcSequence.map (stepTemplate mt)).Nodup := by
  cases hb : mt == "sms"
  · have he : stepTemplate mt = fun s => s.emailTemplate :=
      funext fun s => by simp [stepTemplate, hb]
    rw [he]; decide
  · have he : stepTemplate mt = fun s => s.smsTemplate :=
      funext fun s => by simp [stepTemplate, hb]
    rw [he]; decide

/-! Claim theorems. -/

/-- C1: running sequence message generation twice in succession is
idempotent. If a first run from any store succeeds and yields store st1,
then a second run from st1 succeeds and changes nothing, and for any step
key that already had a message row in the initial store, in any status, the
first run created no further row with that key. -/
theorem seq_generation_idempotent (l : Lead) (cid : Nat) (mt : String)
    (today : Int) (st st1 : Store)
    (h : generateSequenceMessages l cid mt today st = .ok st1) :
    generateSequenceMessages l cid mt today st1 = .ok st1
      ∧ ∀ t, hasSeqMessage st.messages l.id cid t = true →
          countSeqMessage st1.messages l.id cid t
            = countSeqMessage st.messages l.id cid t := by
  cases hreg : l.registrationDate with
  | none =>
      rw [generateSequenceMessages, hreg] at h
      cases h
  | some reg =>
      rw [generateSequenceMessages, hreg] at h
      have hst1 : llcSequence.foldl (generateStep l.id cid mt reg today) st = st1 := by
        cases h; rfl
      constructor
      · have hself : llcSequence.foldl (generateStep l.id cid mt reg today) st1 = st1 :=
          foldl_generateStep_eq_self l.id cid mt reg today llcSequence st1
            (fun s hs hdue => by
              rw [← hst1]
              exact hasSeqMessage_foldl_due l.id cid mt reg today llcSequence st s hs hdue)
        simp only [generateSequenceMessages, hreg, hself]
      · intro t ht
        rw [← hst1]
        exact countSeqMessage_foldl_of_has l.id cid mt reg today llcSequence st t ht

/-- Witness for C1 at a concrete lead, campaign and store: re-running the
generation on the result of a first run from the empty store is a no-op. -/
theorem seq_generation_idempotent_witness :
    generateSequenceMessages leadReg 5 "email" 20 seqRunOne = .ok seqRunOne :=
  (seq_generation_idempotent leadReg 5 "email" 20 storeEmpty seqRunOne rfl).1

/-- C6: sequence generation creates one message for exactly the steps whose
due date, the registration date plus the step offset in days, has arrived
and which have no existing message keyed by lead, campaign and template name
in any status; a lead without a registration date fails fast with the
missing-registration-date error and generates nothing. -/
theorem seq_generation_due_steps (l : Lead) (cid : Nat) (mt : String)
    (today : Int) (st : Store) :
    (l.registrationDate = none →
      generateSequenceMessages l cid mt today st
        = .error "Lead must have a registration date for sequence campaigns")
    ∧ ∀ reg, l.registrationDate = some reg →
        ∃ st1, generateSequenceMessages l cid mt today st = .ok st1
          ∧ ∀ s ∈ llcSequence,
              countSeqMessage st1.messages l.id cid (stepTemplate mt s)
                = countSeqMessage st.messages l.id cid (stepTemplate mt s)
                  + (if reg + (s.day : Int) ≤ today
                        ∧ hasSeqMessage st.messages l.id cid (stepTemplate mt s) = false
                     then 1 else 0) := by
  constructor
  · intro hreg
    simp only [generateSequenceMessages, hreg]
  · intro reg hreg
    refine ⟨llcSequence.foldl (generateStep l.id cid mt reg today) st, ?_, ?_⟩
    · simp only [generateSequenceMessages, hreg]
    · intro s hs
      exact countSeqMessage_foldl_key l.id cid mt reg today llcSequence st s
        (stepTemplate_nodup mt) hs

/-- Witness for C6: a concrete lead without a registration date makes the
generation fail fast with the missing-registration-date error. -/
theorem seq_generation_due_steps_witness :
    generateSequenceMessages leadNoReg 5 "email" 20 storeEmpty
      = .error "Lead must have a registration date for sequence campaigns" :=
  (seq_generation_due_steps leadNoReg 5 "email" 20 storeEmpty).1 rfl

/-- Opt-out exclusion helper: any matching opt-out row makes the shared NOT
EXISTS subquery reject the lead. -/
theorem optOuts_any_of_mem (optOuts : List OptOut) (l : Lead) (o : OptOut)
    (ho : o ∈ optOuts) (hm : optOutMatches o l = true) :
    optOuts.any (fun o1 => optOutMatches o1 l) = true :=
  List.any_eq_true.mpr ⟨o, ho, hm⟩

/-- C2 (amended): the opt-out exclusion is not specific to the campaign
channel. A lead with any matching opt-out row, whether it matches the lead
phone with type sms or all, the lead email with type email or all, or
references the lead directly, is excluded from sequence lead selection for
every campaign channel, so no message is generated for it; in particular a
recipient opted out of sms only is also excluded from email generation. -/
theorem optout_match_excludes_every_channel (messageType : String)
    (targetStates : Option (List String)) (today : Int)
    (optOuts : List OptOut) (l : Lead) (o : OptOut)
    (ho : o ∈ optOuts) (hm : optOutMatches o l = true) :
    seqLeadSelectable messageType targetStates today optOuts l = false := by
  have hany := optOuts_any_of_mem optOuts l o ho hm
  simp [seqLeadSelectable, hany]

/-- Witness for C2 at a concrete lead and opt-out: the sms opt-out row for
the phone of leadBoth excludes it from sms-channel selection. -/
theorem optout_match_excludes_every_channel_witness :
    seqLeadSelectable "sms" none 10 [optOutSmsRow] leadBoth = false :=
  optout_match_excludes_every_channel "sms" none 10 [optOutSmsRow] leadBoth
    optOutSmsRow (by decide) (by decide)

/-- Counterexample for C2 as stated: leadBoth is opted out of sms only, yet
the email-channel sequence selection also rejects it, while without the
opt-out row it would be selected. -/
theorem optout_sms_blocks_email_counterexample :
    seqLeadSelectable "email" none 10 [optOutSmsRow] leadBoth = false
      ∧ seqLeadSelectable "email" none 10 [] leadBoth = true
      ∧ optOutSmsRow.optOutType = "sms" := by
  refine ⟨by decide, by decide, rfl⟩

/-- C3 (amended): the per-tick admission capacity of a campaign equals min
of dailyCap minus the count of that campaign's messages created today in any
status, hourlyCap minus the count created this hour in any status, and the
fixed batch ceiling 50; the campaign is skipped without error, modelled by
none, exactly when this capacity is at most zero. -/
theorem campaign_admission_formula (c : Campaign) (msgs : List Message)
    (today hourStart : Int) :
    processCampaignAdmission c msgs today hourStart
      = (if min (min (c.dailyLimit - (campaignMessagesToday msgs c.id today : Int))
                    (c.hourlyLimit - (campaignMessagesThisHour msgs c.id hourStart : Int)))
              50 ≤ 0
         then none
         else some (min (min (c.dailyLimit - (campaignMessagesToday msgs c.id today : Int))
                    (c.hourlyLimit - (campaignMessagesThisHour msgs c.id hourStart : Int)))
              50)) := by
  simp only [processCampaignAdmission]
  split_ifs with h1 h2 h3 h4 h5 <;> first | rfl | omega

/-- Counterexample for C3 as stated: ten failed messages of campaignCap
created today exhaust the code's count, which ignores status, so the
campaign is skipped, while the claimed formula counting only sent or
delivered messages would still grant capacity 10. -/
theorem campaign_admission_counts_all_statuses_counterexample :
    processCampaignAdmission campaignCap failedMsgsToday 0 0 = none
      ∧ specAdmissionCapacity campaignCap failedMsgsToday 0 0 = 10 := by
  refine ⟨by decide, by decide⟩

/-- C4 (amended): the messages table schema enforces only the type and
status check constraints and the id primary key; an insert with a fresh id
and valid fields is accepted by the store regardless of whether it
duplicates the (lead_id, campaign_id, template_name) sequence key, so
duplicate prevention lives only in the application-level check-then-insert
of generateSequenceMessages. -/
theorem messages_store_accepts_duplicate_key (t : List Message) (m : Message)
    (ht : messagesTableOk t) (hm : messageRowConstraintsOk m = true)
    (hid : ∀ r ∈ t, r.id ≠ m.id) :
    messagesTableOk (t ++ [m]) := by
  constructor
  · rw [List.all_append]
    simp [ht.1, hm]
  · rw [List.map_append]
    refine List.Nodup.append ht.2 (List.nodup_singleton m.id) ?_
    intro x hx hx2
    rcases List.mem_map.mp hx with ⟨r, hr, hrx⟩
    simp only [List.map_cons, List.map_nil, List.mem_singleton] at hx2
    exact hid r hr (hrx ▸ hx2)

/-- Witness for C4: the store accepts inserting dupKeyRowB after dupKeyRowA
even though both carry the same sequence key. -/
theorem messages_store_accepts_duplicate_key_witness :
    messagesTableOk ([dupKeyRowA] ++ [dupKeyRowB]) :=
  messages_store_accepts_duplicate_key [dupKeyRowA] dupKeyRowB
    ⟨by decide, by decide⟩ (by decide) (by decide)

/-- Counterexample for C4 as stated: a table state holding two rows with the
same (lead_id, campaign_id, template_name) key and distinct ids satisfies
every constraint the messages schema declares. -/
theorem messages_schema_duplicate_key_counterexample :
    messagesTableOk [dupKeyRowA, dupKeyRowB]
      ∧ sameSeqKey dupKeyRowA dupKeyRowB = true
      ∧ dupKeyRowA.id ≠ dupKeyRowB.id := by
  refine ⟨⟨by decide, by decide⟩, by decide, by decide⟩

/-- C5 (amended): only resetCounters, which runs at process start,
reconciles the cached counters with the store-derived counts of sent or
delivered messages since the period start; the hourly and daily boundary
jobs zero the cached counters unconditionally without consulting the
store. -/
theorem counter_reset_semantics (curHour curDay hourStart dayStart : Int)
    (msgs : List Message) (w : WorkerCounters) :
    (resetCounters curHour curDay hourStart dayStart msgs w).hourlyMessageCount
        = storeSentSince msgs hourStart
      ∧ (resetCounters curHour curDay hourStart dayStart msgs w).dailyMessageCount
        = storeSentSince msgs dayStart
      ∧ (resetHourlyCounter curHour w).hourlyMessageCount = 0
      ∧ (resetDailyCounter curDay w).dailyMessageCount = 0 :=
  ⟨rfl, rfl, rfl, rfl⟩

/-- Counterexample for C5 as stated: with one message sent inside the current
hour, the hourly boundary reset leaves the cached counter at zero, which
differs from the store-derived count of one. -/
theorem counter_boundary_reset_not_reconciled_counterexample :
    (resetHourlyCounter 1 workerW0).hourlyMessageCount = 0
      ∧ storeSentSince [sentMsgRow] 0 = 1
      ∧ (resetHourlyCounter 1 workerW0).hourlyMessageCount
          ≠ storeSentSince [sentMsgRow] 0 := by
  refine ⟨rfl, by decide, by decide⟩

/-- C7 (amended): one dispatch of a message invokes the provider at most
maxRetries, that is three, times: SMSService retries every error and
EmailService retries only retryable errors, both until attempt reaches
maxRetries. A message whose dispatch ends failed stays failed: the dispatch
batch of processMessages selects only messages in status pending, so the
core never re-invokes the provider for a failed message. -/
theorem dispatch_retry_and_terminal_failure :
    (∀ provider : Nat → Except ProviderError Nat, smsProviderCallCount provider ≤ 3)
      ∧ (∀ provider : Nat → Except ProviderError Nat, emailProviderCallCount provider ≤ 3)
      ∧ ∀ (msgs : List Message) (limit : Nat) (m : Message),
          m ∈ pendingBatch msgs limit → m.status = "pending" := by
  refine ⟨?_, ?_, ?_⟩
  · intro provider
    show (smsSendWithRetry provider smsMaxRetries 1).2 ≤ 3
    cases h1 : provider 1 with
    | ok r => simp [smsSendWithRetry, h1]
    | error e1 =>
      cases h2 : provider 2 with
      | ok r => simp [smsSendWithRetry, h1, h2, smsMaxRetries]
      | error e2 =>
        cases h3 : provider 3 with
        | ok r => simp [smsSendWithRetry, h1, h2, h3, smsMaxRetries]
        | error e3 => simp [smsSendWithRetry, h1, h2, h3, smsMaxRetries]
  · intro provider
    show (emailSendWithRetry provider emailMaxRetries 1).2 ≤ 3
    cases h1 : provider 1 with
    | ok r => simp [emailSendWithRetry, h1]
    | error e1 =>
      cases hr1 : isRetryableError e1 with
      | false => simp [emailSendWithRetry, h1, hr1, emailMaxRetries]
      | true =>
        cases h2 : provider 2 with
        | ok r => simp [emailSendWithRetry, h1, h2, hr1, emailMaxRetries]
        | error e2 =>
          cases hr2 : isRetryableError e2 with
          | false => simp [emailSendWithRetry, h1, h2, hr1, hr2, emailMaxRetries]
          | true =>
            cases h3 : provider 3 with
            | ok r => simp [emailSendWithRetry, h1, h2, h3, hr1, hr2, emailMaxRetries]
            | error e3 =>
                simp [emailSendWithRetry, h1, h2, h3, hr1, hr2, emailMaxRetries]
  · intro msgs limit m hm
    have hm2 := List.mem_of_mem_take hm
    have hm3 := (List.perm_insertionSort
      (fun a b : Message => a.createdAt ≤ b.createdAt) _).mem_iff.mp hm2
    exact eq_of_beq (List.mem_filter.mp hm3).2

/-- Witness for C7: a provider that succeeds immediately is called within
the bound, and a concrete pending message selected by the batch has status
pending. -/
theorem dispatch_retry_and_terminal_failure_witness :
    smsProviderCallCount alwaysOk ≤ 3 ∧ pendingMsgRow.status = "pending" :=
  ⟨dispatch_retry_and_terminal_failure.1 alwaysOk,
   dispatch_retry_and_terminal_failure.2.2 [pendingMsgRow] 5 pendingMsgRow (by decide)⟩

/-- Counterexample for C7 as stated: a provider failing every attempt with a
retryable error is invoked three times, not at most once, within a single
SMS or email dispatch. -/
theorem dispatch_provider_called_thrice_counterexample :
    smsProviderCallCount alwaysNetErr = 3
      ∧ emailProviderCallCount alwaysNetErr = 3
      ∧ ¬ smsProviderCallCount alwaysNetErr ≤ 1 := by
  refine ⟨rfl, rfl, by decide⟩

/-- C8 (amended): one health monitor pass turns every message that has been
in status sending for longer than the one hour timeout into status failed
with the failure reason the code writes, the string Timeout - message stuck
in sending status, while every message not in status sending, in particular
one sitting in pending, is left unchanged; old pending messages are only
counted for the warning report. -/
theorem health_reclaim_semantics (now : Int) (msgs : List Message) (m : Message)
    (hm : m ∈ msgs) :
    reclaimStuckMessage now m ∈ healthCheckMessages now msgs
      ∧ (m.status = "sending" → m.updatedAt < now - 60 →
          (reclaimStuckMessage now m).status = "failed"
            ∧ (reclaimStuckMessage now m).failureReason
                = some "Timeout - message stuck in sending status")
      ∧ (m.status ≠ "sending" → reclaimStuckMessage now m = m) := by
  refine ⟨List.mem_map_of_mem _ hm, ?_, ?_⟩
  · intro hs ht
    unfold reclaimStuckMessage
    rw [if_pos (by simp [hs, ht])]
    exact ⟨rfl, rfl⟩
  · intro hs
    have hc : (m.status == "sending" && decide (m.updatedAt < now - 60)) = false := by
      cases hbe : m.status == "sending"
      · rfl
      · exact absurd (eq_of_beq hbe) hs
    simp [reclaimStuckMessage, hc]

/-- Witness for C8: the message stuck in sending for 90 minutes is
reclassified failed with the timeout reason by the pass at time 1000. -/
theorem health_reclaim_semantics_witness :
    (reclaimStuckMessage 1000 stuckMsgRow).status = "failed"
      ∧ (reclaimStuckMessage 1000 stuckMsgRow).failureReason
          = some "Timeout - message stuck in sending status" :=
  (health_reclaim_semantics 1000 [stuckMsgRow] stuckMsgRow (by decide)).2.1
    rfl (by decide)

/-- Counterexample for C8 as stated: the reclaimed message carries the
failure reason written by the code, which is not the string delivery
timeout named by the claim. -/
theorem health_reclaim_reason_counterexample :
    (reclaimStuckMessage 1000 stuckMsgRow).status = "failed"
      ∧ (reclaimStuckMessage 1000 stuckMsgRow).failureReason
          ≠ some "delivery timeout" := by
  refine ⟨by decide, by decide⟩

/-- C9 (amended): campaign targeting through getLeadsForCampaign, which
requests ascending order, returns the matching recipients sorted by
ascending registration date as a permutation of its input, so three
recipients with increasing registration dates come back oldest first; the
generic getFilteredLeads, however, defaults to descending order, newest
first, and returns the reverse-sorted permutation unless ASC is requested
explicitly. -/
theorem targeting_order_semantics (leads : List Lead) :
    (getLeadsForCampaignOrder leads).Pairwise leadRegAsc
      ∧ (getLeadsForCampaignOrder leads).Perm leads
      ∧ (getFilteredLeadsOrder defaultOrderDirection leads).Pairwise leadRegDesc
      ∧ (getFilteredLeadsOrder defaultOrderDirection leads).Perm leads := by
  have hasc : getLeadsForCampaignOrder leads = leads.insertionSort leadRegAsc := rfl
  have hdesc : getFilteredLeadsOrder defaultOrderDirection leads
      = leads.insertionSort leadRegDesc := rfl
  haveI : IsTotal Lead leadRegAsc := ⟨fun a b => Int.le_total (regOf a) (regOf b)⟩
  haveI : IsTrans Lead leadRegAsc := ⟨fun _ _ _ hab hbc => le_trans hab hbc⟩
  haveI : IsTotal Lead leadRegDesc := ⟨fun a b => Int.le_total (regOf b) (regOf a)⟩
  haveI : IsTrans Lead leadRegDesc := ⟨fun _ _ _ hab hbc => le_trans hbc hab⟩
  refine ⟨?_, ?_, ?_, ?_⟩
  · rw [hasc]; exact List.sorted_insertionSort leadRegAsc leads
  · rw [hasc]; exact List.perm_insertionSort leadRegAsc leads
  · rw [hdesc]; exact List.sorted_insertionSort leadRegDesc leads
  · rw [hdesc]; exact List.perm_insertionSort leadRegDesc leads

/-- Counterexample for C9 as stated: three leads registered on increasing
dates are returned newest first by getFilteredLeads under its default
order direction, not in ascending order. -/
theorem targeting_default_order_counterexample :
    getFilteredLeadsOrder defaultOrderDirection [leadT1, leadT2, leadT3]
        = [leadT3, leadT2, leadT1]
      ∧ regOf leadT1 < regOf leadT2 ∧ regOf leadT2 < regOf leadT3
      ∧ getFilteredLeadsOrder defaultOrderDirection [leadT1, leadT2, leadT3]
        ≠ [leadT1, leadT2, leadT3] := by
  refine ⟨by decide, by decide, by decide, by decide⟩

/-- C10: the dispatch services start every send by writing status sending,
but the messages_status_check constraint of the schema does not admit the
value sending, while the other statuses the dispatch flow writes are
admitted; the schema therefore rejects the very first status transition of
every SMS and email dispatch. -/
theorem dispatch_sending_status_rejected :
    messagesStatusAllowed.contains smsDispatchStartStatus = false
      ∧ messagesStatusAllowed.contains emailDispatchStartStatus = false
      ∧ messageRowConstraintsOk stuckMsgRow = false
      ∧ messagesStatusAllowed.contains "sent" = true
      ∧ messagesStatusAllowed.contains "failed" = true
      ∧ messagesStatusAllowed.contains "delivered" = true := by
  refine ⟨by decide, by decide, by decide, by decide, by decide, by decide⟩

end BusinessHub
